import Mathlib

/-!
Shallow embedding of `src/error.rs` of the `just` recipe runner: the
`Error` catalog, its accessors (`code`, `context`, `print_message`) and the
`ColorDisplay` rendering, modelled with color disabled (a disabled `Color`
paints text unchanged and has empty prefix and suffix strings), so the
rendering is a pure function from an error value to the text printed.
-/

/-- Kind of a platform IO error, as inspected by `io_error.kind()`:
the code distinguishes `NotFound`, `PermissionDenied` and everything else. -/
inductive IoErrorKind where
  | NotFound
  | PermissionDenied
  | Other
deriving DecidableEq

/-- A platform `io::Error`: its kind plus its `Display` text. -/
structure IoError where
  kind : IoErrorKind
  message : String
deriving DecidableEq

/-- `OutputError`, with the exact variants matched by `error.rs`:
exit code, signal, unknown termination, launch IO error, non-UTF-8 output
(the `Utf8` field is the `Display` text of the UTF-8 decode error). -/
inductive OutputError where
  | Code (code : Int)
  | Signal (signal : Int)
  | Unknown
  | Io (io_error : IoError)
  | Utf8 (utf8_error : String)
deriving DecidableEq

/-- A process `ExitStatus`: `code` models `status.code()`, which is `none`
when the process was terminated without an exit code (e.g. by a signal);
`display` is the status `Display` text. -/
structure ExitStatus where
  code : Option Int
  display : String
deriving DecidableEq

/-- A source token; `display` is the text its `color_display` rendering
produces with color disabled (the source-location excerpt). -/
structure Token where
  display : String
deriving DecidableEq

/-- A `Name` in the source: its lexeme and its token. -/
structure Name where
  lexeme : String
  token : Token
deriving DecidableEq

/-- A `CompileError`: its `context()` token and its `Display` text. -/
structure CompileError where
  context : Token
  display : String
deriving DecidableEq

/-- A `Suggestion`: `display` is its `Display` text. -/
structure Suggestion where
  display : String
deriving DecidableEq

/-- A recipe `Parameter`; `display` is the text its `color_display`
rendering produces with color disabled (its signature in the usage line). -/
structure Parameter where
  display : String
deriving DecidableEq

/-- Modelled from the spec: `Enclosure::tick` (not under `src/`) wraps a
value in backticks, as seen in every quoted name in the messages. -/
def ticked (s : String) : String := "`" ++ s ++ "`"

/-- Modelled from the spec: `Count` (not under `src/`) renders a count
word matching a number — the bare word for one, the plural (word plus
an `s`) otherwise. -/
def Count (word : String) (n : Nat) : String :=
  word ++ (if n == 1 then "" else "s")

/-- Modelled from the spec: continuation of `List` joining (not under
`src/`) after the first item of a list of three or more: comma-separated
ticked items, the conjunction before the last. -/
def tickJoinRest (conj : String) : List String → String
  | [] => ""
  | [a] => ", " ++ conj ++ " " ++ ticked a
  | a :: rest => ", " ++ ticked a ++ tickJoinRest conj rest

/-- Modelled from the spec: `List::or_ticked` / `List::and_ticked` (not
under `src/`) list every name, each wrapped in backticks, joined with a
conjunction word. -/
def tickJoin (conj : String) : List String → String
  | [] => ""
  | [a] => ticked a
  | [a, b] => ticked a ++ " " ++ conj ++ " " ++ ticked b
  | a :: rest => ticked a ++ tickJoinRest conj rest

/-- `format_cmd`: the binary and its arguments, each ticked, joined by
spaces. -/
def format_cmd (binary : String) (arguments : List String) : String :=
  String.intercalate " " ((binary :: arguments).map ticked)

/-- The `Error` catalog of `src/error.rs`, one constructor per variant,
with the source field names (foreign error payloads are carried as their
`Display` text; `variable_name` and `include_path` stand for the source
fields `variable` and `include`, which are Lean keywords). -/
inductive Error where
  | ArgumentCountMismatch (recipe : String) (parameters : List Parameter)
      (found min max : Nat)
  | Backtick (token : Token) (output_error : OutputError)
  | ChooserInvoke (shell_binary shell_arguments chooser : String) (io_error : IoError)
  | ChooserRead (chooser : String) (io_error : IoError)
  | ChooserStatus (chooser : String) (status : ExitStatus)
  | ChooserWrite (chooser : String) (io_error : IoError)
  | CircularInclude (current include_path : String)
  | Code (recipe : String) (line_number : Option Nat) (code : Int) (print_message : Bool)
  | CommandInvoke (binary : String) (arguments : List String) (io_error : IoError)
  | CommandStatus (binary : String) (arguments : List String) (status : ExitStatus)
  | Compile (compile_error : CompileError)
  | Config (config_error : String)
  | Cygpath (recipe : String) (output_error : OutputError)
  | DefaultRecipeRequiresArguments (recipe : String) (min_arguments : Nat)
  | Dotenv (dotenv_error : String)
  | DumpJson (serde_json_error : String)
  | EditorInvoke (editor : String) (io_error : IoError)
  | EditorStatus (editor : String) (status : ExitStatus)
  | EvalUnknownVariable (variable_name : String) (suggestion : Option Suggestion)
  | FormatCheckFoundDiff
  | FunctionCall (function : Name) (message : String)
  | IncludeMissingPath (file : String) (line : Nat)
  | InitExists (justfile : String)
  | Internal (message : String)
  | InvalidDirective (line : String)
  | Io (recipe : String) (io_error : IoError)
  | Load (path : String) (io_error : IoError)
  | NoChoosableRecipes
  | NoRecipes
  | RegexCompile (source : String)
  | Search (search_error : String)
  | Shebang (recipe : String) (command : String) (argument : Option String)
      (io_error : IoError)
  | Signal (recipe : String) (line_number : Option Nat) (signal : Int)
  | TmpdirIo (recipe : String) (io_error : IoError)
  | Unknown (recipe : String) (line_number : Option Nat)
  | UnknownOverrides (overrides : List String)
  | UnknownRecipes (recipes : List String) (suggestion : Option Suggestion)
  | Unstable (message : String)
  | WriteJustfile (justfile : String) (io_error : IoError)
deriving DecidableEq

/-- `Error::code` (`error.rs` lines 156-166): the explicit exit code, when
the failure carries one. -/
def Error.code : Error → Option Int
  | .Code _ _ code _ => some code
  | .Backtick _ (.Code code) => some code
  | .ChooserStatus _ status => status.code
  | .EditorStatus _ status => status.code
  | _ => none

/-- `Error::context` (`error.rs` lines 168-175): the token a source
excerpt is rendered from, for the variants attributable to a point in the
source. -/
def Error.context : Error → Option Token
  | .Backtick token _ => some token
  | .Compile compile_error => some compile_error.context
  | .FunctionCall function _ => some function.token
  | _ => none

/-- `Error::print_message` (`error.rs` lines 183-191): true unless the
value matches `Code { print_message: false, .. }`. -/
def Error.print_message (e : Error) : Bool :=
  !(match e with
    | .Code _ _ _ false => true
    | _ => false)

/-- The primary message of the `ColorDisplay` implementation
(`error.rs` lines 226-407), rendered with color disabled: the text
written between the `error: ` prefix and the usage/context parts. -/
def Error.mainMessage : Error → String
  | .ArgumentCountMismatch recipe _ found min max =>
      let count := Count "argument" found
      if min = max then
        let expected := min
        let only := if expected < found then "only " else ""
        "Recipe `" ++ recipe ++ "` got " ++ toString found ++ " " ++ count ++
          " but " ++ only ++ "takes " ++ toString expected
      else if found < min then
        "Recipe `" ++ recipe ++ "` got " ++ toString found ++ " " ++ count ++
          " but takes at least " ++ toString min
      else if found > max then
        "Recipe `" ++ recipe ++ "` got " ++ toString found ++ " " ++ count ++
          " but takes at most " ++ toString max
      else ""
  | .Backtick _ output_error =>
      match output_error with
      | .Code code => "Backtick failed with exit code " ++ toString code
      | .Signal signal => "Backtick was terminated by signal " ++ toString signal
      | .Unknown => "Backtick failed for an unknown reason"
      | .Io io_error =>
          match io_error.kind with
          | .NotFound =>
              "Backtick could not be run because just could not find the shell:\n" ++
                io_error.message
          | .PermissionDenied =>
              "Backtick could not be run because just could not run the shell:\n" ++
                io_error.message
          | .Other =>
              "Backtick could not be run because of an IO error while launching the shell:\n" ++
                io_error.message
      | .Utf8 utf8_error => "Backtick succeeded but stdout was not utf8: " ++ utf8_error
  | .ChooserInvoke shell_binary shell_arguments chooser io_error =>
      "Chooser `" ++ shell_binary ++ " " ++ shell_arguments ++ " " ++ chooser ++
        "` invocation failed: " ++ io_error.message
  | .ChooserRead chooser io_error =>
      "Failed to read output from chooser `" ++ chooser ++ "`: " ++ io_error.message
  | .ChooserStatus chooser status =>
      "Chooser `" ++ chooser ++ "` failed: " ++ status.display
  | .ChooserWrite chooser io_error =>
      "Failed to write to chooser `" ++ chooser ++ "`: " ++ io_error.message
  | .CircularInclude current include_path =>
      "Include `" ++ include_path ++ "` in `" ++ current ++ "` is a circular include"
  | .Code recipe line_number code _ =>
      match line_number with
      | some n =>
          "Recipe `" ++ recipe ++ "` failed on line " ++ toString n ++
            " with exit code " ++ toString code
      | none => "Recipe `" ++ recipe ++ "` failed with exit code " ++ toString code
  | .CommandInvoke binary arguments io_error =>
      "Failed to invoke " ++ format_cmd binary arguments ++ ": " ++ io_error.message
  | .CommandStatus binary arguments status =>
      "Command " ++ format_cmd binary arguments ++ " failed: " ++ status.display
  | .Compile compile_error => compile_error.display
  | .Config config_error => config_error
  | .Cygpath recipe output_error =>
      match output_error with
      | .Code code =>
          "Cygpath failed with exit code " ++ toString code ++
            " while translating recipe `" ++ recipe ++ "` shebang interpreter path"
      | .Signal signal =>
          "Cygpath terminated by signal " ++ toString signal ++
            " while translating recipe `" ++ recipe ++ "` shebang interpreter path"
      | .Unknown =>
          "Cygpath experienced an unknown failure while translating recipe `" ++ recipe ++
            "` shebang interpreter path"
      | .Io io_error =>
          match io_error.kind with
          | .NotFound =>
              "Could not find `cygpath` executable to translate recipe `" ++ recipe ++
                "` shebang interpreter path:\n" ++ io_error.message
          | .PermissionDenied =>
              "Could not run `cygpath` executable to translate recipe `" ++ recipe ++
                "` shebang interpreter path:\n" ++ io_error.message
          | .Other => "Could not run `cygpath` executable:\n" ++ io_error.message
      | .Utf8 utf8_error =>
          "Cygpath successfully translated recipe `" ++ recipe ++
            "` shebang interpreter path, but output was not utf8: " ++ utf8_error
  | .DefaultRecipeRequiresArguments recipe min_arguments =>
      let count := Count "argument" min_arguments
      "Recipe `" ++ recipe ++ "` cannot be used as default recipe since it requires at least " ++
        toString min_arguments ++ " " ++ count ++ "."
  | .Dotenv dotenv_error => "Failed to load environment file: " ++ dotenv_error
  | .DumpJson serde_json_error => "Failed to dump JSON to stdout: " ++ serde_json_error
  | .EditorInvoke editor io_error =>
      "Editor `" ++ editor ++ "` invocation failed: " ++ io_error.message
  | .EditorStatus editor status =>
      "Editor `" ++ editor ++ "` failed: " ++ status.display
  | .EvalUnknownVariable variable_name suggestion =>
      "Justfile does not contain variable `" ++ variable_name ++ "`." ++
        (match suggestion with
         | some s => "\n" ++ s.display
         | none => "")
  | .FormatCheckFoundDiff => "Formatted justfile differs from original."
  | .FunctionCall function message =>
      "Call to function `" ++ function.lexeme ++ "` failed: " ++ message
  | .IncludeMissingPath file line =>
      "!include directive on line " ++ toString (line + 1) ++ " of `" ++ file ++
        "` has no argument"
  | .InitExists justfile => "Justfile `" ++ justfile ++ "` already exists"
  | .Internal message =>
      "Internal runtime error, this may indicate a bug in just: " ++ message ++
        " consider filing an issue: https://github.com/casey/just/issues/new"
  | .InvalidDirective line => "Invalid directive: " ++ line
  | .Io recipe io_error =>
      match io_error.kind with
      | .NotFound =>
          "Recipe `" ++ recipe ++ "` could not be run because just could not find the shell: " ++
            io_error.message
      | .PermissionDenied =>
          "Recipe `" ++ recipe ++ "` could not be run because just could not run the shell: " ++
            io_error.message
      | .Other =>
          "Recipe `" ++ recipe ++
            "` could not be run because of an IO error while launching the shell: " ++
            io_error.message
  | .Load path io_error =>
      "Failed to read justfile at `" ++ path ++ "`: " ++ io_error.message
  | .NoChoosableRecipes => "Justfile contains no choosable recipes."
  | .NoRecipes => "Justfile contains no recipes."
  | .RegexCompile source => source
  | .Search search_error => search_error
  | .Shebang recipe command argument io_error =>
      match argument with
      | some a =>
          "Recipe `" ++ recipe ++ "` with shebang `#!" ++ command ++ " " ++ a ++
            "` execution error: " ++ io_error.message
      | none =>
          "Recipe `" ++ recipe ++ "` with shebang `#!" ++ command ++
            "` execution error: " ++ io_error.message
  | .Signal recipe line_number signal =>
      match line_number with
      | some n =>
          "Recipe `" ++ recipe ++ "` was terminated on line " ++ toString n ++
            " by signal " ++ toString signal
      | none =>
          "Recipe `" ++ recipe ++ "` was terminated by signal " ++ toString signal
  | .TmpdirIo recipe io_error =>
      "Recipe `" ++ recipe ++
        "` could not be run because of an IO error while trying to create a temporary directory or write a file to that directory`:" ++
        io_error.message
  | .Unknown recipe line_number =>
      match line_number with
      | some n =>
          "Recipe `" ++ recipe ++ "` failed on line " ++ toString n ++
            " for an unknown reason"
      | none => "Recipe `" ++ recipe ++ "` failed for an unknown reason"
  | .UnknownOverrides overrides =>
      Count "Variable" overrides.length ++ " " ++ tickJoin "and" overrides ++
        " overridden on the command line but not present in justfile"
  | .UnknownRecipes recipes suggestion =>
      "Justfile does not contain " ++ Count "recipe" recipes.length ++ " " ++
        tickJoin "or" recipes ++ "." ++
        (match suggestion with
         | some s => "\n" ++ s.display
         | none => "")
  | .Unstable message =>
      message ++ " Invoke `just` with the `--unstable` flag to enable unstable features."
  | .WriteJustfile justfile io_error =>
      "Failed to write justfile to `" ++ justfile ++ "`: " ++ io_error.message

/-- The usage line (`error.rs` lines 411-420): for an arity mismatch only,
a newline, `usage:`, and `just <recipe>` followed by each parameter. -/
def Error.usagePart : Error → String
  | .ArgumentCountMismatch recipe parameters _ _ _ =>
      "\nusage:\n    just " ++ recipe ++
        String.join (parameters.map fun param => " " ++ param.display)
  | _ => ""

/-- The source excerpt (`error.rs` lines 422-425): when `context` yields a
token, a newline and the token rendering. -/
def Error.contextPart (e : Error) : String :=
  match e.context with
  | some token => "\n" ++ token.display
  | none => ""

/-- The full rendering of the `ColorDisplay` implementation for `Error`
with color disabled: the `error: ` prefix, the primary message, the usage
line for arity mismatches, and the source excerpt when one exists. -/
def Error.fmt (e : Error) : String :=
  "error: " ++ e.mainMessage ++ e.usagePart ++ e.contextPart

/-- The categories a `Backtick` failure is classified into by the match in
`error.rs` lines 239-249: exit code, signal, unknown termination, the three
kinds of launch IO error, and non-UTF-8 output. -/
inductive BacktickCat where
  | code
  | signal
  | unknown
  | ioNotFound
  | ioPermissionDenied
  | ioOther
  | utf8
deriving DecidableEq

/-- Which category a backtick `OutputError` falls into. -/
def backtickClass : OutputError → BacktickCat
  | .Code _ => .code
  | .Signal _ => .signal
  | .Unknown => .unknown
  | .Io io_error =>
      match io_error.kind with
      | .NotFound => .ioNotFound
      | .PermissionDenied => .ioPermissionDenied
      | .Other => .ioOther
  | .Utf8 _ => .utf8

/-- The fixed message text each backtick category renders, naming the
cause. -/
def backtickTemplate : BacktickCat → String
  | .code => "Backtick failed with exit code "
  | .signal => "Backtick was terminated by signal "
  | .unknown => "Backtick failed for an unknown reason"
  | .ioNotFound => "Backtick could not be run because just could not find the shell:\n"
  | .ioPermissionDenied => "Backtick could not be run because just could not run the shell:\n"
  | .ioOther => "Backtick could not be run because of an IO error while launching the shell:\n"
  | .utf8 => "Backtick succeeded but stdout was not utf8: "

/-- The variable payload appended after the fixed backtick category text. -/
def backtickPayload : OutputError → String
  | .Code code => toString code
  | .Signal signal => toString signal
  | .Unknown => ""
  | .Io io_error => io_error.message
  | .Utf8 utf8_error => utf8_error

theorem string_append_ne_of_incomparable (a b x y : String)
    (h₁ : ¬ a.data <+: b.data) (h₂ : ¬ b.data <+: a.data) : a ++ x ≠ b ++ y := by
  intro h
  have hd : a.data ++ x.data = b.data ++ y.data := by
    have := congrArg String.data h
    simpa using this
  rcases List.append_eq_append_iff.mp hd with ⟨a', ha, _⟩ | ⟨c', hc, _⟩
  · exact h₁ ⟨a', ha.symm⟩
  · exact h₂ ⟨c', hc.symm⟩

theorem backtickTemplate_incomparable :
    ∀ c₁ c₂ : BacktickCat, c₁ ≠ c₂ →
      ¬ (backtickTemplate c₁).data <+: (backtickTemplate c₂).data := by
  intro c₁ c₂ h
  cases c₁ <;> cases c₂ <;> first
    | exact absurd rfl h
    | decide

theorem backtick_main_eq (t : Token) (oe : OutputError) :
    Error.mainMessage (.Backtick t oe) =
      backtickTemplate (backtickClass oe) ++ backtickPayload oe := by
  cases oe with
  | Code c => rfl
  | Signal s => rfl
  | Unknown => rfl
  | Io ioe => cases ioe with
    | mk kind m => cases kind <;> rfl
  | Utf8 u => rfl

theorem ticked_infix_tickJoinRest (conj : String) :
    ∀ (l : List String) (x : String), x ∈ l →
      (ticked x).data <:+: (tickJoinRest conj l).data := by
  intro l
  induction l with
  | nil => intro x hx; cases hx
  | cons a rest ih =>
    intro x hx
    cases rest with
    | nil =>
      simp at hx
      subst hx
      exact ⟨(", " ++ conj ++ " ").data, [], by simp [tickJoinRest]⟩
    | cons b t =>
      rcases List.mem_cons.mp hx with rfl | hx₂
      · exact ⟨", ".data, (tickJoinRest conj (b :: t)).data, by simp [tickJoinRest]⟩
      · obtain ⟨s, u, h⟩ := ih x hx₂
        exact ⟨(", " ++ ticked a).data ++ s, u, by
          simp [tickJoinRest, ← h, List.append_assoc]⟩

theorem ticked_infix_tickJoin (conj : String) :
    ∀ (l : List String) (x : String), x ∈ l →
      (ticked x).data <:+: (tickJoin conj l).data := by
  intro l x hx
  match l with
  | [] => cases hx
  | [a] =>
    simp at hx
    subst hx
    exact ⟨[], [], by simp [tickJoin]⟩
  | [a, b] =>
    rcases List.mem_cons.mp hx with rfl | hx₂
    · exact ⟨[], (" " ++ conj ++ " " ++ ticked b).data, by simp [tickJoin, List.append_assoc]⟩
    · simp at hx₂
      subst hx₂
      exact ⟨(ticked a ++ " " ++ conj ++ " ").data, [], by simp [tickJoin, List.append_assoc]⟩
  | a :: b :: c :: t =>
    rcases List.mem_cons.mp hx with rfl | hx₂
    · exact ⟨[], (tickJoinRest conj (b :: c :: t)).data, by simp [tickJoin]⟩
    · obtain ⟨s, u, h⟩ := ticked_infix_tickJoinRest conj (b :: c :: t) x hx₂
      exact ⟨(ticked a).data ++ s, u, by simp [tickJoin, ← h, List.append_assoc]⟩

/-- Claim C1, counterexample: the claim names only a recipe exit code and
a chooser/editor status code as carriers of an explicit exit code, and says
every other variant yields none; but a `Backtick` failure with a non-zero
exit code also surfaces its code through `Error.code`. -/
theorem code_backtick_counterexample :
    Error.code (Error.Backtick ⟨""⟩ (OutputError.Code 3)) = some 3 := rfl

/-- Claim C1, amended: `Error.code` returns an explicit exit code exactly
when the failure carries one — a recipe exit code (`Code`), a backtick
subprocess exit code (`Backtick` with an exit-code outcome), or a
chooser/editor subprocess status that has a code — and returns none for
every other error value, in which case the caller falls back to a generic
non-zero code. -/
theorem code_accessor_spec :
    ∀ (e : Error) (c : Int), Error.code e = some c ↔
      (∃ r ln pm, e = .Code r ln c pm) ∨
      (∃ t, e = .Backtick t (.Code c)) ∨
      (∃ ch st, e = .ChooserStatus ch st ∧ st.code = some c) ∨
      (∃ ed st, e = .EditorStatus ed st ∧ st.code = some c) := by
  intro e c
  cases e <;> simp [Error.code]
  case Backtick t oe => cases oe <;> simp
  case ChooserStatus ch st =>
    constructor
    · intro h
      exact ⟨ch, st, ⟨rfl, rfl⟩, h⟩
    · rintro ⟨ch', st', ⟨hc, hs⟩, h⟩
      rw [hs]
      exact h
  case EditorStatus ed st =>
    constructor
    · intro h
      exact ⟨ed, st, ⟨rfl, rfl⟩, h⟩
    · rintro ⟨ed', st', ⟨hc, hs⟩, h⟩
      rw [hs]
      exact h

/-- Claim C1, witness: a recipe failure with exit code 2 surfaces code 2. -/
theorem code_accessor_spec_witness :
    Error.code (Error.Code "build" (some 3) 2 true) = some 2 :=
  (code_accessor_spec (Error.Code "build" (some 3) 2 true) 2).mpr
    (Or.inl ⟨"build", some 3, true, rfl⟩)

/-- Claim C2, counterexample: the claim says feature-gated (`Unstable`)
failures are not printed as user messages, but `Error.print_message` is
true on every `Unstable` value. -/
theorem print_message_unstable_counterexample :
    Error.print_message (Error.Unstable "SQL recipes are currently unstable.") = true := rfl

/-- Claim C2, amended: `Error.print_message` returns false exactly in the
deliberate exit-code passthrough case — a `Code` failure constructed with
`print_message` false; every other error value, including feature-gated
(`Unstable`) failures, has `print_message` true. -/
theorem print_message_spec :
    ∀ e : Error, Error.print_message e = false ↔
      ∃ r ln c, e = .Code r ln c false := by
  intro e
  cases e <;> simp [Error.print_message]
  case Code r ln c pm => cases pm <;> simp

/-- Claim C2, witness: an exit-code passthrough failure is not printed. -/
theorem print_message_spec_witness :
    Error.print_message (Error.Code "build" none 3 false) = false :=
  (print_message_spec (Error.Code "build" none 3 false)).mpr ⟨"build", none, 3, rfl⟩

/-- Claim C3: a backtick failure is classified into exactly one of the
categories — non-zero exit code, terminated by signal, unknown
termination, launch-time IO failure (distinguished as shell not found,
shell not runnable, or generic IO), or non-UTF-8 output — the primary
message is the fixed template naming that cause followed by the variable
payload, and failures in different categories always render different
primary messages. -/
theorem backtick_classification_spec :
    (∀ (t : Token) (oe : OutputError),
      Error.mainMessage (.Backtick t oe) =
        backtickTemplate (backtickClass oe) ++ backtickPayload oe) ∧
    (∀ (t₁ t₂ : Token) (oe₁ oe₂ : OutputError),
      backtickClass oe₁ ≠ backtickClass oe₂ →
        Error.mainMessage (.Backtick t₁ oe₁) ≠ Error.mainMessage (.Backtick t₂ oe₂)) := by
  constructor
  · exact backtick_main_eq
  · intro t₁ t₂ oe₁ oe₂ h
    rw [backtick_main_eq, backtick_main_eq]
    exact string_append_ne_of_incomparable _ _ _ _
      (backtickTemplate_incomparable _ _ h)
      (backtickTemplate_incomparable _ _ (Ne.symm h))

/-- Claim C3, witness: an exit-code backtick failure and an
unknown-termination backtick failure render different messages. -/
theorem backtick_classification_spec_witness :
    Error.mainMessage (Error.Backtick ⟨""⟩ (OutputError.Code 1)) ≠
      Error.mainMessage (Error.Backtick ⟨""⟩ OutputError.Unknown) :=
  backtick_classification_spec.2 ⟨""⟩ ⟨""⟩ (OutputError.Code 1) OutputError.Unknown (by decide)

/-- Claim C4: an argument-count-mismatch error carries the recipe name,
the full parameter list, the found count, min and max; its rendering
differentiates three cases — exact arity (min = max, with `only` added
when too many were given), too few (found below min), too many (found
above max) — and is always followed by a usage line showing
`just <recipe>` with the parameter signature. -/
theorem argument_count_mismatch_spec :
    ∀ (r : String) (ps : List Parameter) (found mn mx : Nat),
      Error.fmt (.ArgumentCountMismatch r ps found mn mx) =
        "error: " ++
        (if mn = mx then
          "Recipe `" ++ r ++ "` got " ++ toString found ++ " " ++ Count "argument" found ++
            " but " ++ (if mn < found then "only " else "") ++ "takes " ++ toString mn
         else if found < mn then
          "Recipe `" ++ r ++ "` got " ++ toString found ++ " " ++ Count "argument" found ++
            " but takes at least " ++ toString mn
         else if found > mx then
          "Recipe `" ++ r ++ "` got " ++ toString found ++ " " ++ Count "argument" found ++
            " but takes at most " ++ toString mx
         else "") ++
        ("\nusage:\n    just " ++ r ++ String.join (ps.map fun p => " " ++ p.display)) := by
  intro r ps found mn mx
  simp [Error.fmt, Error.mainMessage, Error.usagePart, Error.contextPart, Error.context]

/-- Claim C5: a nonzero-exit recipe failure carries the recipe name, the
exit code and an optional line number; with a known line number the
message states the recipe failed on that line with that exit code, and
without one (script mode) it names only the recipe and the code. -/
theorem recipe_code_message_spec :
    ∀ (r : String) (ln : Option Nat) (c : Int) (pm : Bool),
      Error.fmt (.Code r ln c pm) =
        "error: " ++
        (match ln with
         | some n => "Recipe `" ++ r ++ "` failed on line " ++ toString n ++
             " with exit code " ++ toString c
         | none => "Recipe `" ++ r ++ "` failed with exit code " ++ toString c) := by
  intro r ln c pm
  cases ln <;>
    simp [Error.fmt, Error.mainMessage, Error.usagePart, Error.contextPart, Error.context]

/-- Claim C6: a failure to launch the shell for a recipe is classified by
the IO error kind — `NotFound` renders the could-not-find-the-shell
message, `PermissionDenied` the could-not-run-the-shell message, any
other kind the generic IO-error-while-launching message — and each
message names the recipe and includes the underlying platform error. -/
theorem shell_launch_io_spec :
    ∀ (r : String) (ioe : IoError),
      Error.fmt (.Io r ioe) =
        "error: " ++
        (match ioe.kind with
         | .NotFound =>
             "Recipe `" ++ r ++ "` could not be run because just could not find the shell: " ++
               ioe.message
         | .PermissionDenied =>
             "Recipe `" ++ r ++ "` could not be run because just could not run the shell: " ++
               ioe.message
         | .Other =>
             "Recipe `" ++ r ++
               "` could not be run because of an IO error while launching the shell: " ++
               ioe.message) := by
  intro r ioe
  cases ioe with
  | mk kind m =>
    cases kind <;>
      simp [Error.fmt, Error.mainMessage, Error.usagePart, Error.contextPart, Error.context]

/-- Claim C7: an unknown-recipe failure carries the entire list of
unknown names together with at most one suggestion; its rendering uses a
count word matching the number of names, the joined ticked list of all
the names, and the optional suggestion — and every unknown name appears
(backtick-quoted) in the rendered message. -/
theorem unknown_recipes_spec :
    ∀ (recipes : List String) (sug : Option Suggestion),
      (Error.fmt (.UnknownRecipes recipes sug) =
        "error: Justfile does not contain " ++ Count "recipe" recipes.length ++ " " ++
          tickJoin "or" recipes ++ "." ++
          (match sug with | some s => "\n" ++ s.display | none => "")) ∧
      (∀ x ∈ recipes, (ticked x).data <:+: (Error.fmt (.UnknownRecipes recipes sug)).data) := by
  intro recipes sug
  have hfmt : Error.fmt (.UnknownRecipes recipes sug) =
      "error: Justfile does not contain " ++ Count "recipe" recipes.length ++ " " ++
        tickJoin "or" recipes ++ "." ++
        (match sug with | some s => "\n" ++ s.display | none => "") := by
    simp [Error.fmt, Error.mainMessage, Error.usagePart, Error.contextPart, Error.context,
      String.append_assoc]
    rw [← String.append_assoc]
    rfl
  refine ⟨hfmt, ?_⟩
  intro x hx
  rw [hfmt]
  obtain ⟨s, u, h⟩ := ticked_infix_tickJoin "or" recipes x hx
  refine ⟨("error: Justfile does not contain " ++ Count "recipe" recipes.length ++ " ").data ++ s,
    u ++ ("." ++ (match sug with | some s => "\n" ++ s.display | none => "")).data, ?_⟩
  cases sug <;> simp [← h, List.append_assoc]

/-- Claim C7, witness: a misspelled recipe name appears ticked in the
rendered unknown-recipes message. -/
theorem unknown_recipes_spec_witness :
    (ticked "bulid").data <:+:
      (Error.fmt (Error.UnknownRecipes ["bulid", "tset"]
        (some ⟨"Did you mean `build`?"⟩))).data :=
  (unknown_recipes_spec ["bulid", "tset"] (some ⟨"Did you mean `build`?"⟩)).2 "bulid"
    (by decide)

/-- Claim C8: the default-recipe-needs-arguments condition is a dedicated
error carrying the recipe name and the minimum argument count, rendering
the cannot-be-used-as-default-recipe message, and is distinct from every
generic arity-mismatch error value. -/
theorem default_recipe_requires_arguments_spec :
    ∀ (r : String) (m : Nat),
      (Error.fmt (.DefaultRecipeRequiresArguments r m) =
        "error: Recipe `" ++ r ++
          "` cannot be used as default recipe since it requires at least " ++
          toString m ++ " " ++ Count "argument" m ++ ".") ∧
      (∀ (r' : String) (ps : List Parameter) (found mn mx : Nat),
        Error.DefaultRecipeRequiresArguments r m ≠
          .ArgumentCountMismatch r' ps found mn mx) := by
  intro r m
  constructor
  · simp [Error.fmt, Error.mainMessage, Error.usagePart, Error.contextPart, Error.context,
      String.append_assoc]
    rw [← String.append_assoc]
    rfl
  · intro r' ps found mn mx
    simp

/-- Claim C9: a source-location excerpt is appended to the rendered
output exactly when the error is attributable to a point in the source —
exactly the backtick, compile and function-call variants, the ones whose
context accessor yields a token; every other variant renders with no
excerpt. -/
theorem context_excerpt_spec :
    ∀ e : Error,
      ((Error.context e).isSome ↔
        (∃ t oe, e = .Backtick t oe) ∨ (∃ ce, e = .Compile ce) ∨
          (∃ fn m, e = .FunctionCall fn m)) ∧
      (∀ t, Error.context e = some t →
        Error.fmt e = "error: " ++ Error.mainMessage e ++ Error.usagePart e ++
          ("\n" ++ t.display)) ∧
      (Error.context e = none →
        Error.fmt e = "error: " ++ Error.mainMessage e ++ Error.usagePart e) := by
  intro e
  refine ⟨?_, ?_, ?_⟩
  · cases e <;> simp [Error.context]
  · intro t ht
    simp [Error.fmt, Error.contextPart, ht]
  · intro h
    simp [Error.fmt, Error.contextPart, h]

/-- Claim C9, witness: a compile error renders with its source excerpt
appended after a newline. -/
theorem context_excerpt_spec_witness :
    Error.fmt (Error.Compile ⟨⟨"justfile:1:1 excerpt"⟩, "expected name"⟩) =
      "error: " ++ Error.mainMessage (Error.Compile ⟨⟨"justfile:1:1 excerpt"⟩, "expected name"⟩) ++
        Error.usagePart (Error.Compile ⟨⟨"justfile:1:1 excerpt"⟩, "expected name"⟩) ++
        ("\n" ++ "justfile:1:1 excerpt") :=
  (context_excerpt_spec (Error.Compile ⟨⟨"justfile:1:1 excerpt"⟩, "expected name"⟩)).2.1
    ⟨"justfile:1:1 excerpt"⟩ rfl

/-- Claim C10: for a chooser-status or editor-status error whose recorded
exit status carries no code (for example, termination by signal),
`Error.code` returns none, so even these variants can fall back to the
generic non-zero exit code. -/
theorem status_without_code_spec :
    ∀ (ch ed : String) (st : ExitStatus), st.code = none →
      Error.code (.ChooserStatus ch st) = none ∧
        Error.code (.EditorStatus ed st) = none := by
  intro ch ed st h
  constructor <;> simp [Error.code, h]

/-- Claim C10, witness: a chooser or editor terminated by a signal, whose
status carries no code, yields no explicit exit code. -/
theorem status_without_code_spec_witness :
    Error.code (Error.ChooserStatus "fzf" ⟨none, "signal: 9 (SIGKILL)"⟩) = none ∧
      Error.code (Error.EditorStatus "vim" ⟨none, "signal: 9 (SIGKILL)"⟩) = none :=
  status_without_code_spec "fzf" "vim" ⟨none, "signal: 9 (SIGKILL)"⟩ rfl
